import Mathlib

/-!
Verification development for the tuio-simulator core (src-tauri/src).

Modelling conventions:
* Rust machine integers are plain `Nat` (unsigned) or `Int` (signed); a field
  of Rust type `uN` denotes a value `< 2^N`.  Wrapping arithmetic and
  truncating casts carry an explicit `% 2^N` at the cast site.
* Rust `f32` values are modelled as exact rationals (`Rat`).  Every claim under
  study is about which fields are written and which exact formula the code
  applies, never about IEEE-754 rounding, so the exact field is a faithful
  shallow embedding.  The one place where concrete float bits are needed (the
  byte serialisation of a `float32` argument) is parameterised by an arbitrary
  32-bit pattern function `floatBits : Rat → Nat`.
* `HashMap<u32, TuioObject>` is modelled as an association list
  `List (Nat × TuioObject)`; insertion replaces an existing key and otherwise
  appends, and `values()` is the list of second components.
-/

/-- Size of the `u32` value domain, `2^32`. -/
def u32size : Nat := 4294967296

/-- Rust `as u32` cast of an `i64` value: the low 32 bits of the
two's-complement representation, i.e. the value modulo `2^32`. -/
def i64_as_u32 (v : Int) : Nat := (v % (4294967296 : Int)).toNat

/-- An OSC timetag: two 32-bit words (`rosc::OscTime`). -/
structure OscTime where
  seconds : Nat
  fractional : Nat
deriving DecidableEq

/-- One OSC argument (`rosc::OscType`, restricted to the variants the encoder
produces).  A 32-bit integer argument is carried as its unsigned 32-bit wire
pattern. -/
inductive OscArg where
  | int (pattern : Nat)
  | float (value : Rat)
  | str (s : String)
  | time (t : OscTime)
deriving DecidableEq

/-- An OSC message (`rosc::OscMessage`): address plus typed argument list. -/
structure OscMessage where
  addr : String
  args : List OscArg
deriving DecidableEq

/-- An OSC bundle (`rosc::OscBundle`).  The simulator only ever places plain
messages inside a bundle (encoder.rs pushes `OscPacket::Message` values only),
so the content is a list of messages. -/
structure OscBundle where
  timetag : OscTime
  content : List OscMessage
deriving DecidableEq

/-- One live TUIO object (`state.rs`, `struct TuioObject`). -/
structure TuioObject where
  session_id : Nat
  type_id : Nat
  user_id : Nat
  component_id : Nat
  x : Rat
  y : Rat
  angle : Rat
  x_vel : Rat
  y_vel : Rat
  angle_vel : Rat
  last_x : Rat
  last_y : Rat
  last_angle : Rat
  last_update : Int
deriving DecidableEq

/-- FRM message data (`messages.rs`, `struct FrameMessage`). -/
structure FrameMessage where
  frame_id : Nat
  timestamp : Int
  width : Nat
  height : Nat
  source : String

/-- `FrameMessage::new`. -/
def FrameMessage.new (frame_id : Nat) (timestamp : Int) (width height : Nat)
    (source : String) : FrameMessage :=
  { frame_id, timestamp, width, height, source }

/-- `FrameMessage::to_osc` (messages.rs).  `dimension = (width << 16) | height`;
`seconds = (timestamp / 1000) as u32`;
`fractional = (((timestamp % 1000) * u32::MAX as i64) / 1000) as u32`,
with Rust truncating division/remainder (`Int.tdiv` / `Int.tmod`). -/
def FrameMessage.to_osc (m : FrameMessage) : OscMessage :=
  let dimension : Nat := (m.width <<< 16) ||| m.height
  let seconds : Nat := i64_as_u32 (m.timestamp.tdiv 1000)
  let fractional : Nat := i64_as_u32 (((m.timestamp.tmod 1000) * 4294967295).tdiv 1000)
  { addr := "/tuio2/frm"
    args := [OscArg.int m.frame_id, OscArg.time ⟨seconds, fractional⟩,
             OscArg.int dimension, OscArg.str m.source] }

/-- ALV message data (`messages.rs`, `struct AliveMessage`). -/
structure AliveMessage where
  session_ids : List Nat

/-- `AliveMessage::new`. -/
def AliveMessage.new (session_ids : List Nat) : AliveMessage :=
  { session_ids }

/-- `AliveMessage::to_osc` (messages.rs): one `int32` argument per session id. -/
def AliveMessage.to_osc (m : AliveMessage) : OscMessage :=
  { addr := "/tuio2/alv"
    args := m.session_ids.map (fun id => OscArg.int id) }

/-- TOK message data (`messages.rs`, `struct TokenMessage`). -/
structure TokenMessage where
  session_id : Nat
  type_id : Nat
  user_id : Nat
  component_id : Nat
  x : Rat
  y : Rat
  angle : Rat
  x_vel : Rat
  y_vel : Rat
  angle_vel : Rat

/-- `TokenMessage::new`. -/
def TokenMessage.new (session_id type_id user_id component_id : Nat)
    (x y angle x_vel y_vel angle_vel : Rat) : TokenMessage :=
  { session_id, type_id, user_id, component_id, x, y, angle, x_vel, y_vel, angle_vel }

/-- `TokenMessage::to_osc` (messages.rs): 9 arguments, with
`type_user_id = (type_id << 16) | user_id`. -/
def TokenMessage.to_osc (m : TokenMessage) : OscMessage :=
  let type_user_id : Nat := (m.type_id <<< 16) ||| m.user_id
  { addr := "/tuio2/tok"
    args := [OscArg.int m.session_id, OscArg.int type_user_id, OscArg.int m.component_id,
             OscArg.float m.x, OscArg.float m.y, OscArg.float m.angle,
             OscArg.float m.x_vel, OscArg.float m.y_vel, OscArg.float m.angle_vel] }

/-- PTR message data (`messages.rs`, `struct PointerMessage`). -/
structure PointerMessage where
  session_id : Nat
  type_id : Nat
  user_id : Nat
  component_id : Nat
  x : Rat
  y : Rat
  angle : Rat
  shear : Rat
  radius : Rat
  pressure : Rat
  x_vel : Rat
  y_vel : Rat
  pressure_vel : Rat
  accel : Rat

/-- `PointerMessage::new` (messages.rs): defaults `shear=0`, `radius=0`,
`pressure=1.0`, `pressure_vel=0`, `accel=0`. -/
def PointerMessage.new (session_id type_id user_id component_id : Nat)
    (x y angle x_vel y_vel : Rat) : PointerMessage :=
  { session_id, type_id, user_id, component_id, x, y, angle,
    shear := 0, radius := 0, pressure := 1, x_vel, y_vel,
    pressure_vel := 0, accel := 0 }

/-- `PointerMessage::to_osc` (messages.rs): 13 arguments. -/
def PointerMessage.to_osc (m : PointerMessage) : OscMessage :=
  let type_user_id : Nat := (m.type_id <<< 16) ||| m.user_id
  { addr := "/tuio2/ptr"
    args := [OscArg.int m.session_id, OscArg.int type_user_id, OscArg.int m.component_id,
             OscArg.float m.x, OscArg.float m.y, OscArg.float m.angle,
             OscArg.float m.shear, OscArg.float m.radius, OscArg.float m.pressure,
             OscArg.float m.x_vel, OscArg.float m.y_vel, OscArg.float m.pressure_vel,
             OscArg.float m.accel] }

/-- `encoder.rs`, `enum MessageType`. -/
inductive MessageType where
  | Token
  | Pointer
deriving DecidableEq

/-- `create_tuio_bundle_with_type` (encoder.rs): FRM message, then one TOK or
PTR message per object, then the ALV message with all session ids; immediate
timetag `{seconds=0, fractional=1}`. -/
def create_tuio_bundle_with_type (frame_id : Nat) (timestamp : Int) (width height : Nat)
    (source : String) (objects : List TuioObject) (message_type : MessageType) : OscBundle :=
  let frm := FrameMessage.new frame_id timestamp width height source
  let objMsgs := objects.map (fun obj =>
    match message_type with
    | MessageType.Token =>
        (TokenMessage.new obj.session_id obj.type_id obj.user_id obj.component_id
          obj.x obj.y obj.angle obj.x_vel obj.y_vel obj.angle_vel).to_osc
    | MessageType.Pointer =>
        (PointerMessage.new obj.session_id obj.type_id obj.user_id obj.component_id
          obj.x obj.y obj.angle obj.x_vel obj.y_vel).to_osc)
  let session_ids := objects.map (fun obj => obj.session_id)
  let alv := AliveMessage.new session_ids
  { timetag := ⟨0, 1⟩
    content := frm.to_osc :: (objMsgs ++ [alv.to_osc]) }

/-- `create_tuio_bundle` (encoder.rs): defaults to TOK messages. -/
def create_tuio_bundle (frame_id : Nat) (timestamp : Int) (width height : Nat)
    (source : String) (objects : List TuioObject) : OscBundle :=
  create_tuio_bundle_with_type frame_id timestamp width height source objects MessageType.Token

/-- Big-endian 4-byte encoding of a 32-bit word. -/
def u32be (n : Nat) : List Nat :=
  [n / 16777216 % 256, n / 65536 % 256, n / 256 % 256, n % 256]

/-- Bytes of a string (codepoints; the OSC addresses and tags in play are
ASCII, where this agrees with UTF-8). -/
def strBytes (s : String) : List Nat := s.data.map Char.toNat

/-- Modelled from the spec: OSC string encoding (spec §4.B), null-terminated
and zero-padded to a 4-byte boundary.  The actual serialiser is the external
`rosc` crate, which is not part of this repository's sources. -/
def oscPadString (s : String) : List Nat :=
  strBytes s ++ List.replicate (4 - (strBytes s).length % 4) 0

/-- OSC type-tag character of one argument. -/
def typeTagChar : OscArg → Char
  | OscArg.int _ => 'i'
  | OscArg.float _ => 'f'
  | OscArg.str _ => 's'
  | OscArg.time _ => 't'

/-- Modelled from the spec: serialisation of one OSC argument (spec §4.B,
"int/float big-endian 32-bit, strings null-terminated and 4-padded, time tags
as two big-endian u32").  `floatBits` supplies the IEEE-754 bit pattern of a
`float32` argument. -/
def encodeArg (floatBits : Rat → Nat) : OscArg → List Nat
  | OscArg.int p => u32be (p % u32size)
  | OscArg.float v => u32be (floatBits v % u32size)
  | OscArg.str s => oscPadString s
  | OscArg.time t => u32be (t.seconds % u32size) ++ u32be (t.fractional % u32size)

/-- Modelled from the spec: serialisation of one OSC message (spec §4.B):
padded address, padded type-tag string starting with a comma, then the
argument payloads. -/
def encodeMessage (floatBits : Rat → Nat) (m : OscMessage) : List Nat :=
  oscPadString m.addr
    ++ oscPadString (String.mk (List.cons ',' (m.args.map typeTagChar)))
    ++ (m.args.map (encodeArg floatBits)).flatten

/-- The 8 magic bytes opening every OSC bundle: ASCII `#bundle` plus NUL. -/
def bundleMagic : List Nat := [35, 98, 117, 110, 100, 108, 101, 0]

/-- Modelled from the spec: `encode_bundle` (encoder.rs delegates to the
external `rosc` encoder; spec §4.B gives the byte layout): magic `#bundle\x00`,
8-byte timetag, then each element with a 4-byte big-endian size and its
encoding. -/
def encode_bundle (floatBits : Rat → Nat) (b : OscBundle) : List Nat :=
  bundleMagic
    ++ u32be (b.timetag.seconds % u32size) ++ u32be (b.timetag.fractional % u32size)
    ++ (b.content.map (fun m =>
          u32be (encodeMessage floatBits m).length ++ encodeMessage floatBits m)).flatten

/-- `create_and_encode_tuio_bundle` (encoder.rs). -/
def create_and_encode_tuio_bundle (floatBits : Rat → Nat) (frame_id : Nat) (timestamp : Int)
    (width height : Nat) (source : String) (objects : List TuioObject) : List Nat :=
  encode_bundle floatBits (create_tuio_bundle frame_id timestamp width height source objects)

/-- Server configuration (`state.rs`, `struct Config`). -/
structure Config where
  port : Nat
  fps : Nat
  width : Nat
  height : Nat
  source : String
deriving DecidableEq

/-- `Config::default` (state.rs). -/
def Config.default : Config :=
  { port := 3343, fps := 60, width := 1920, height := 1080, source := "tuio-simulator" }

/-- Status snapshot (`state.rs`, `struct ServerStatus`). -/
structure ServerStatus where
  running : Bool
  port : Nat
  fps : Nat
  connected_clients : Nat
  frame_count : Nat
  object_count : Nat
deriving DecidableEq

/-- Application state (`state.rs`, `struct AppState`).  The mutexes guard
plain values; the sequential model keeps the values.  `frame_task` records
whether a producer-task handle is stored (commands.rs), and
`connected_clients` mirrors the WebSocket server's client counter. -/
structure AppState where
  objects : List (Nat × TuioObject)
  next_session_id : Nat
  frame_counter : Nat
  config : Config
  server_running : Bool
  connected_clients : Nat
  frame_task : Bool
deriving DecidableEq

/-- `AppState::new` (state.rs). -/
def AppState.new : AppState :=
  { objects := [], next_session_id := 0, frame_counter := 0, config := Config.default,
    server_running := false, connected_clients := 0, frame_task := false }

/-- `AppState::allocate_session_id` (state.rs): returns the current counter
value and advances it with `u32::wrapping_add(1)`. -/
def AppState.allocate_session_id (s : AppState) : Nat × AppState :=
  (s.next_session_id, { s with next_session_id := (s.next_session_id + 1) % u32size })

/-- `AppState::increment_frame_counter` (state.rs): wrapping-adds 1 and
returns the new value. -/
def AppState.increment_frame_counter (s : AppState) : Nat × AppState :=
  let counter := (s.frame_counter + 1) % u32size
  (counter, { s with frame_counter := counter })

/-- Association-list lookup, modelling `HashMap::get`. -/
def lookupObj : List (Nat × TuioObject) → Nat → Option TuioObject
  | [], _ => none
  | p :: rest, k => if p.1 = k then some p.2 else lookupObj rest k

/-- Association-list insert, modelling `HashMap::insert`: replaces an existing
key, otherwise appends. -/
def insertObj (l : List (Nat × TuioObject)) (k : Nat) (v : TuioObject) :
    List (Nat × TuioObject) :=
  if l.any (fun p => p.1 = k) then l.map (fun p => if p.1 = k then (k, v) else p)
  else l ++ [(k, v)]

/-- In-place modification of the entry at a key, modelling `HashMap::get_mut`
followed by field assignments. -/
def modifyObj (l : List (Nat × TuioObject)) (k : Nat) (f : TuioObject → TuioObject) :
    List (Nat × TuioObject) :=
  l.map (fun p => if p.1 = k then (p.1, f p.2) else p)

/-- Association-list removal, modelling `HashMap::remove`. -/
def removeObj (l : List (Nat × TuioObject)) (k : Nat) : List (Nat × TuioObject) :=
  l.filter (fun p => ¬ p.1 = k)

/-- Velocity update of a single object (`frame.rs`, body of the
`calculate_velocities` loop).  Rust: `delta_time_ms = current_timestamp -
last_update`; only when `delta_time_ms > 1` are the three velocities derived
from the deltas against the shadow fields (dividing by
`delta_time_ms as f32 / 1000.0`) and the shadow fields committed. -/
def updateVelocity (current_timestamp : Int) (o : TuioObject) : TuioObject :=
  let delta_time_ms := current_timestamp - o.last_update
  if 1 < delta_time_ms then
    let delta_time_seconds : Rat := (delta_time_ms : Rat) / 1000
    { o with
      x_vel := (o.x - o.last_x) / delta_time_seconds
      y_vel := (o.y - o.last_y) / delta_time_seconds
      angle_vel := (o.angle - o.last_angle) / delta_time_seconds
      last_x := o.x
      last_y := o.y
      last_angle := o.angle
      last_update := current_timestamp }
  else o

/-- `calculate_velocities` (frame.rs): applies the velocity update to every
object in the map. -/
def calculate_velocities (objects : List (Nat × TuioObject)) (current_timestamp : Int) :
    List (Nat × TuioObject) :=
  objects.map (fun p => (p.1, updateVelocity current_timestamp p.2))

/-- `generate_frame` (frame.rs): increments the frame counter and uses the new
value as frame id, runs the velocity pass, stores it back, and encodes the
bundle over the object snapshot.  `timestamp` stands for
`chrono::Utc::now().timestamp_millis()`. -/
def generate_frame (floatBits : Rat → Nat) (state : AppState) (timestamp : Int) :
    List Nat × AppState :=
  let fc := state.increment_frame_counter
  let frame_id := fc.1
  let state1 := fc.2
  let objects := calculate_velocities state1.objects timestamp
  let state2 := { state1 with objects := objects }
  let objects_vec := objects.map (fun p => p.2)
  (create_and_encode_tuio_bundle floatBits frame_id timestamp state2.config.width
    state2.config.height state2.config.source objects_vec, state2)

/-- `add_object` (commands.rs).  Validations in source order; on success the
freshly allocated session id keys the inserted object.  `timestamp` stands for
`chrono::Utc::now().timestamp_millis()`. -/
def add_object (s : AppState) (timestamp : Int) (component_id : Nat) (x y : Rat) :
    Except String Nat × AppState :=
  if ¬ (1 ≤ component_id ∧ component_id ≤ 24) then
    (Except.error "Component ID must be in range [1, 24]", s)
  else if ¬ (0 ≤ x ∧ x ≤ 1) ∨ ¬ (0 ≤ y ∧ y ≤ 1) then
    (Except.error "Coordinates must be in range [0.0, 1.0]", s)
  else if s.objects.any (fun p => p.2.component_id = component_id) then
    (Except.error (toString component_id ++ " is already in use"), s)
  else
    let alloc := s.allocate_session_id
    let session_id := alloc.1
    let s1 := alloc.2
    let object : TuioObject :=
      { session_id, type_id := component_id, user_id := 0, component_id, x, y,
        angle := 0, x_vel := 0, y_vel := 0, angle_vel := 0,
        last_x := x, last_y := y, last_angle := 0, last_update := timestamp }
    (Except.ok session_id, { s1 with objects := insertObj s1.objects session_id object })

/-- `update_object` (commands.rs): validates coordinates, then sets exactly
`x`, `y`, `angle`, `last_update` of the addressed object; not-found otherwise. -/
def update_object (s : AppState) (timestamp : Int) (session_id : Nat) (x y angle : Rat) :
    Except String Unit × AppState :=
  if ¬ (0 ≤ x ∧ x ≤ 1) ∨ ¬ (0 ≤ y ∧ y ≤ 1) then
    (Except.error "Coordinates must be in range [0.0, 1.0]", s)
  else
    match lookupObj s.objects session_id with
    | some _ =>
        let objects := modifyObj s.objects session_id
          (fun o => { o with x, y, angle, last_update := timestamp })
        (Except.ok (), { s with objects })
    | none => (Except.error ("Object with session_id " ++ toString session_id ++ " not found"), s)

/-- `remove_object` (commands.rs). -/
def remove_object (s : AppState) (session_id : Nat) : Except String Unit × AppState :=
  match lookupObj s.objects session_id with
  | some _ => (Except.ok (), { s with objects := removeObj s.objects session_id })
  | none => (Except.error ("Object with session_id " ++ toString session_id ++ " not found"), s)

/-- `set_frame_rate` (commands.rs). -/
def set_frame_rate (s : AppState) (fps : Nat) : Except String Unit × AppState :=
  if ¬ (1 ≤ fps ∧ fps ≤ 120) then (Except.error "FPS must be in range [1, 120]", s)
  else (Except.ok (), { s with config := { s.config with fps } })

/-- `set_canvas_dimensions` (commands.rs). -/
def set_canvas_dimensions (s : AppState) (width height : Nat) : Except String Unit × AppState :=
  if width = 0 ∨ height = 0 then
    (Except.error "Width and height must be greater than 0", s)
  else (Except.ok (), { s with config := { s.config with width, height } })

/-- `get_server_status` (commands.rs). -/
def get_server_status (s : AppState) : ServerStatus :=
  { running := s.server_running, port := s.config.port, fps := s.config.fps,
    connected_clients := s.connected_clients, frame_count := s.frame_counter,
    object_count := s.objects.length }

/-- Externally observable steps of `start_server` / `stop_server`, in the
order the code performs them. -/
inductive ServerAction where
  | checkRunning
  | setPort (port : Nat)
  | bindWebsocket (port : Nat)
  | spawnFrameTask
  | storeTaskHandle
  | setRunning (b : Bool)
  | abortFrameTask
  | stopWebsocket
deriving DecidableEq

/-- `start_server` (commands.rs), with an explicit trace of its steps in
source order.  `bindOk` abstracts the outcome of the WebSocket bind
(`websocket_server.start(port)`); a successful bind first stops any previous
server, resetting the client counter. -/
def start_server (s : AppState) (port : Nat) (bindOk : Bool) :
    (Except String Unit × AppState) × List ServerAction :=
  if s.server_running then
    ((Except.error "Server is already running", s), [ServerAction.checkRunning])
  else
    let s1 := { s with config := { s.config with port } }
    if ¬ bindOk then
      ((Except.error "Failed to start WebSocket server", s1),
        [ServerAction.checkRunning, ServerAction.setPort port, ServerAction.bindWebsocket port])
    else
      let s2 := { s1 with connected_clients := 0 }
      let s3 := { s2 with frame_task := true }
      let s4 := { s3 with server_running := true }
      ((Except.ok (), s4),
        [ServerAction.checkRunning, ServerAction.setPort port, ServerAction.bindWebsocket port,
         ServerAction.spawnFrameTask, ServerAction.storeTaskHandle, ServerAction.setRunning true])

/-- `stop_server` (commands.rs): clears the running flag, aborts the stored
frame task, stops the WebSocket server (which resets the client counter). -/
def stop_server (s : AppState) : (Except String Unit × AppState) × List ServerAction :=
  ((Except.ok (), { s with server_running := false, frame_task := false, connected_clients := 0 }),
    [ServerAction.setRunning false, ServerAction.abortFrameTask, ServerAction.stopWebsocket])

/-- One externally triggered transition of the application state: any command
of the command surface (commands.rs) or one producer tick (`generate_frame`),
with arbitrary inputs and timestamps.  Commands that fail leave the state
unchanged, so the resulting state is always the second component. -/
inductive Step : AppState → AppState → Prop where
  | add (s : AppState) (t : Int) (c : Nat) (x y : Rat) : Step s (add_object s t c x y).2
  | update (s : AppState) (t : Int) (sid : Nat) (x y ang : Rat) :
      Step s (update_object s t sid x y ang).2
  | remove (s : AppState) (sid : Nat) : Step s (remove_object s sid).2
  | setFps (s : AppState) (fps : Nat) : Step s (set_frame_rate s fps).2
  | setDims (s : AppState) (w h : Nat) : Step s (set_canvas_dimensions s w h).2
  | genFrame (s : AppState) (fb : Rat → Nat) (t : Int) : Step s (generate_frame fb s t).2
  | start (s : AppState) (port : Nat) (bindOk : Bool) : Step s (start_server s port bindOk).1.2
  | stop (s : AppState) : Step s (stop_server s).1.2

/-- States reachable from the freshly constructed `AppState::new` by any
sequence of commands and producer ticks. -/
inductive Reachable : AppState → Prop where
  | init : Reachable AppState.new
  | step {s s' : AppState} : Reachable s → Step s s' → Reachable s'

/-- A sample live object used to instantiate universally quantified theorems;
all rational fields are integral so that kernel evaluation stays cheap. -/
def sampleObject : TuioObject :=
  { session_id := 1, type_id := 5, user_id := 0, component_id := 5,
    x := 1, y := 0, angle := 3, x_vel := 0, y_vel := 0, angle_vel := 0,
    last_x := 0, last_y := 0, last_angle := 0, last_update := 0 }

/-- The object `add_object` inserts for `component_id = 7`, `x = 1`, `y = 0` at
timestamp 0 into the fresh state; used to instantiate theorems. -/
def addedObject : TuioObject :=
  { session_id := 0, type_id := 7, user_id := 0, component_id := 7,
    x := 1, y := 0, angle := 0, x_vel := 0, y_vel := 0, angle_vel := 0,
    last_x := 1, last_y := 0, last_angle := 0, last_update := 0 }

theorem lookupObj_calculate_velocities (l : List (Nat × TuioObject)) (t : Int) (k : Nat) :
    lookupObj (calculate_velocities l t) k = (lookupObj l k).map (updateVelocity t) := by
  induction l with
  | nil => rfl
  | cons p rest ih =>
      by_cases h : p.1 = k
      · simp [calculate_velocities, lookupObj, h]
      · simpa [calculate_velocities, lookupObj, h] using ih

theorem updateVelocity_position (t : Int) (o : TuioObject) :
    (updateVelocity t o).x = o.x ∧ (updateVelocity t o).y = o.y ∧
      (updateVelocity t o).angle = o.angle := by
  simp only [updateVelocity]
  split <;> simp

theorem getLast?_cons_concat {α : Type} (a b : α) (l : List α) :
    (a :: (l ++ [b])).getLast? = some b := by
  induction l generalizing a with
  | nil => rfl
  | cons c rest ih =>
      rw [List.cons_append, List.getLast?_cons_cons]
      exact ih c

theorem lookupObj_modifyObj_self (l : List (Nat × TuioObject)) (k : Nat)
    (f : TuioObject → TuioObject) :
    lookupObj (modifyObj l k f) k = (lookupObj l k).map f := by
  induction l with
  | nil => rfl
  | cons p rest ih =>
      by_cases h : p.1 = k
      · simp [modifyObj, lookupObj, h]
      · simpa [modifyObj, lookupObj, h] using ih

theorem lookupObj_modifyObj_ne (l : List (Nat × TuioObject)) (k k' : Nat)
    (f : TuioObject → TuioObject) (h : k' ≠ k) :
    lookupObj (modifyObj l k f) k' = lookupObj l k' := by
  induction l with
  | nil => rfl
  | cons p rest ih =>
      by_cases hp : p.1 = k
      · have hp' : ¬ p.1 = k' := by
          rw [hp]
          exact fun e => h e.symm
        have h2 : ¬ k = k' := fun e => h e.symm
        simpa [modifyObj, lookupObj, hp, hp', h, h2] using ih
      · by_cases hp' : p.1 = k'
        · simp [modifyObj, lookupObj, hp, hp', h]
        · simpa [modifyObj, lookupObj, hp, hp', h] using ih

/-- C1: For every frame id, timestamp, width, height, source string, and
object list, the bundle produced by `create_tuio_bundle` /
`create_tuio_bundle_with_type` (and its encoding by `encode_bundle`) has the
element sequence FRM first, then exactly one per-object message (TOK by
default, PTR in pointer mode) per object in the supplied list, then ALV last;
the ALV argument list is exactly the session ids of the supplied objects (so
its argument count is the object count); the bundle timetag is
`{seconds=0, fractional=1}`; and the encoded byte stream begins with the
8 bytes `#bundle\x00`. -/
theorem claim_C1_bundle_structure (frame_id : Nat) (timestamp : Int) (width height : Nat)
    (source : String) (objects : List TuioObject) (message_type : MessageType) :
    (create_tuio_bundle_with_type frame_id timestamp width height source objects
        message_type).content =
      (FrameMessage.new frame_id timestamp width height source).to_osc ::
        (objects.map (fun obj =>
          match message_type with
          | MessageType.Token =>
              (TokenMessage.new obj.session_id obj.type_id obj.user_id obj.component_id
                obj.x obj.y obj.angle obj.x_vel obj.y_vel obj.angle_vel).to_osc
          | MessageType.Pointer =>
              (PointerMessage.new obj.session_id obj.type_id obj.user_id obj.component_id
                obj.x obj.y obj.angle obj.x_vel obj.y_vel).to_osc)
          ++ [(AliveMessage.new (objects.map (fun obj => obj.session_id))).to_osc]) ∧
    create_tuio_bundle frame_id timestamp width height source objects =
      create_tuio_bundle_with_type frame_id timestamp width height source objects
        MessageType.Token ∧
    ((create_tuio_bundle_with_type frame_id timestamp width height source objects
        message_type).content.map OscMessage.addr =
      "/tuio2/frm" :: (objects.map (fun _ =>
          match message_type with
          | MessageType.Token => "/tuio2/tok"
          | MessageType.Pointer => "/tuio2/ptr")
        ++ ["/tuio2/alv"])) ∧
    ((create_tuio_bundle_with_type frame_id timestamp width height source objects
        message_type).content.getLast?.map OscMessage.args =
      some (objects.map (fun obj => OscArg.int obj.session_id))) ∧
    ((create_tuio_bundle_with_type frame_id timestamp width height source objects
        message_type).content.getLast?.map (fun m => m.args.length) =
      some objects.length) ∧
    (create_tuio_bundle_with_type frame_id timestamp width height source objects
        message_type).timetag = ⟨0, 1⟩ ∧
    ∀ floatBits : Rat → Nat,
      (encode_bundle floatBits (create_tuio_bundle_with_type frame_id timestamp width height
          source objects message_type)).take 8 = [35, 98, 117, 110, 100, 108, 101, 0] := by
  refine ⟨rfl, rfl, ?_, ?_, ?_, rfl, ?_⟩
  · simp only [create_tuio_bundle_with_type, List.map_cons, List.map_append, List.map_map]
    refine congrArg (fun t => _ :: t) (congrArg₂ (· ++ ·) ?_ rfl)
    cases message_type <;> simp [Function.comp_def, TokenMessage.to_osc, PointerMessage.to_osc,
      TokenMessage.new, PointerMessage.new]
  · simp only [create_tuio_bundle_with_type, getLast?_cons_concat, Option.map_some]
    simp [AliveMessage.to_osc, AliveMessage.new]
  · simp only [create_tuio_bundle_with_type, getLast?_cons_concat, Option.map_some]
    simp [AliveMessage.to_osc, AliveMessage.new]
  · intro floatBits
    show (bundleMagic ++ _ ++ _ ++ _).take 8 = bundleMagic
    rw [List.append_assoc, List.append_assoc]
    exact List.take_left' rfl

theorem i64_as_u32_natCast (m : Nat) : i64_as_u32 (m : Int) = m % 4294967296 := by
  simp only [i64_as_u32]
  omega

/-- C2 counterexample: at `timestamp_ms = 500` the FRM timetag fractional the
code computes is `floor(500 * (2^32 - 1) / 1000) = 2147483647` (messages.rs
multiplies by `u32::MAX`), not `floor(500 * 2^32 / 1000) = 2147483648` as the
claim states. -/
theorem claim_C2_counterexample :
    (FrameMessage.new 1 (500 : Int) 1920 1080 "s").to_osc.args.get? 1 ≠
      some (OscArg.time ⟨500 / 1000, 500 % 1000 * 4294967296 / 1000⟩) := by
  decide

/-- C2 (amended): for every non-negative `timestamp_ms`, the FRM arguments are
the frame id, the timetag with `seconds = (timestamp_ms / 1000) mod 2^32` (the
`as u32` cast) and `fractional = floor((timestamp_ms mod 1000) * (2^32 - 1) /
1000)`, the dimension `(width << 16) | height` with both operands 16-bit
unsigned, and the source string. -/
theorem claim_C2_frm_args (frame_id : Nat) (ts : Int) (width height : Nat) (source : String)
    (hts : 0 ≤ ts) :
    (FrameMessage.new frame_id ts width height source).to_osc.args =
      [OscArg.int frame_id,
       OscArg.time ⟨ts.toNat / 1000 % 4294967296, ts.toNat % 1000 * 4294967295 / 1000⟩,
       OscArg.int ((width <<< 16) ||| height),
       OscArg.str source] := by
  obtain ⟨n, rfl⟩ := Int.eq_ofNat_of_zero_le hts
  simp only [FrameMessage.new, FrameMessage.to_osc]
  have h1 : ((n : Int)).tdiv 1000 = ((n / 1000 : Nat) : Int) := rfl
  have h2 : (((n : Int)).tmod 1000 * 4294967295).tdiv 1000
      = ((n % 1000 * 4294967295 / 1000 : Nat) : Int) := rfl
  rw [h1, h2, i64_as_u32_natCast, i64_as_u32_natCast]
  have h3 : n % 1000 * 4294967295 / 1000 % 4294967296 = n % 1000 * 4294967295 / 1000 := by
    have : n % 1000 < 1000 := Nat.mod_lt _ (by norm_num)
    omega
  rw [h3]
  simp

theorem claim_C2_frm_args_witness :
    (FrameMessage.new 9 (1500 : Int) 1920 1080 "tuio-simulator").to_osc.args =
      [OscArg.int 9,
       OscArg.time ⟨(1500 : Int).toNat / 1000 % 4294967296,
         (1500 : Int).toNat % 1000 * 4294967295 / 1000⟩,
       OscArg.int ((1920 <<< 16) ||| 1080),
       OscArg.str "tuio-simulator"] :=
  claim_C2_frm_args 9 1500 1920 1080 "tuio-simulator" (by norm_num)

/-- C3 counterexample: with the session counter at 1 and a live object whose
session id is 1 stored under key 1, `allocate_session_id` returns 1 — the id
of a live object.  The allocator never consults the store, so the claimed
skip-past-live-ids behaviour does not exist. -/
theorem claim_C3_counterexample :
    (({ AppState.new with objects := [(1, sampleObject)], next_session_id := 1 }
        : AppState).allocate_session_id).1 = 1 ∧
    lookupObj [(1, sampleObject)] 1 = some sampleObject ∧
    sampleObject.session_id = 1 :=
  ⟨rfl, rfl, rfl⟩

/-- C3 (amended): `allocate_session_id` returns the current counter value and
advances the counter by exactly one modulo 2^32 (so successive allocations
return consecutive ids mod 2^32); it performs no collision check against live
objects and leaves the store untouched, so after counter wrap-around the
returned id can equal the session id of a live object. -/
theorem claim_C3_allocate_session_id (s : AppState) :
    (s.allocate_session_id).1 = s.next_session_id ∧
    (s.allocate_session_id).2.next_session_id = (s.next_session_id + 1) % u32size ∧
    ((s.allocate_session_id).2.allocate_session_id).1 = (s.next_session_id + 1) % u32size ∧
    (s.allocate_session_id).2.objects = s.objects :=
  ⟨rfl, rfl, rfl, rfl⟩

/-- C4: for every object in the map and timestamp `now`, with
`delta_t_ms = now - last_update`: if `delta_t_ms <= 1` everything is left
unchanged; otherwise the three velocities are the raw deltas (no angle wrap
normalisation) divided by `delta_t_ms / 1000`, and the shadow fields are
committed (`last_x = x`, `last_y = y`, `last_angle = angle`,
`last_update = now`); `x`, `y`, `angle` are never modified. -/
theorem claim_C4_calculate_velocities (objects : List (Nat × TuioObject)) (now : Int)
    (k : Nat) (o : TuioObject) (h : lookupObj objects k = some o) :
    lookupObj (calculate_velocities objects now) k = some (updateVelocity now o) ∧
    (updateVelocity now o).x = o.x ∧
    (updateVelocity now o).y = o.y ∧
    (updateVelocity now o).angle = o.angle ∧
    updateVelocity now o =
      (if 1 < now - o.last_update then
        { o with
          x_vel := (o.x - o.last_x) / (((now - o.last_update : Int) : Rat) / 1000)
          y_vel := (o.y - o.last_y) / (((now - o.last_update : Int) : Rat) / 1000)
          angle_vel := (o.angle - o.last_angle) / (((now - o.last_update : Int) : Rat) / 1000)
          last_x := o.x
          last_y := o.y
          last_angle := o.angle
          last_update := now }
      else o) := by
  obtain ⟨hx, hy, ha⟩ := updateVelocity_position now o
  refine ⟨?_, hx, hy, ha, rfl⟩
  rw [lookupObj_calculate_velocities, h]
  rfl

theorem claim_C4_calculate_velocities_witness :
    lookupObj (calculate_velocities [(1, sampleObject)] 100) 1
        = some (updateVelocity 100 sampleObject) ∧
    (updateVelocity 100 sampleObject).x = sampleObject.x ∧
    (updateVelocity 100 sampleObject).y = sampleObject.y ∧
    (updateVelocity 100 sampleObject).angle = sampleObject.angle ∧
    updateVelocity 100 sampleObject =
      (if 1 < (100 : Int) - sampleObject.last_update then
        { sampleObject with
          x_vel := (sampleObject.x - sampleObject.last_x) /
            ((((100 : Int) - sampleObject.last_update : Int) : Rat) / 1000)
          y_vel := (sampleObject.y - sampleObject.last_y) /
            ((((100 : Int) - sampleObject.last_update : Int) : Rat) / 1000)
          angle_vel := (sampleObject.angle - sampleObject.last_angle) /
            ((((100 : Int) - sampleObject.last_update : Int) : Rat) / 1000)
          last_x := sampleObject.x
          last_y := sampleObject.y
          last_angle := sampleObject.angle
          last_update := (100 : Int) }
      else sampleObject) :=
  claim_C4_calculate_velocities [(1, sampleObject)] 100 1 sampleObject rfl

/-- C5: each call to `generate_frame` increments the frame counter by exactly
1 modulo 2^32 and uses the incremented value as the FRM frame id (the first
message of the encoded bundle), so frame ids of consecutive ticks satisfy
`next = prev + 1 (mod 2^32)`. -/
theorem claim_C5_frame_counter (fb : Rat → Nat) (s : AppState) (t t2 : Int) :
    (generate_frame fb s t).2.frame_counter = (s.frame_counter + 1) % u32size ∧
    (generate_frame fb s t).1 =
      create_and_encode_tuio_bundle fb ((s.frame_counter + 1) % u32size) t
        s.config.width s.config.height s.config.source
        ((calculate_velocities s.objects t).map (fun p => p.2)) ∧
    (create_tuio_bundle ((s.frame_counter + 1) % u32size) t s.config.width s.config.height
        s.config.source ((calculate_velocities s.objects t).map (fun p => p.2))).content.head? =
      some (FrameMessage.new ((s.frame_counter + 1) % u32size) t s.config.width
        s.config.height s.config.source).to_osc ∧
    (FrameMessage.new ((s.frame_counter + 1) % u32size) t s.config.width s.config.height
        s.config.source).to_osc.args.head? =
      some (OscArg.int ((s.frame_counter + 1) % u32size)) ∧
    (generate_frame fb (generate_frame fb s t).2 t2).2.frame_counter =
      ((generate_frame fb s t).2.frame_counter + 1) % u32size :=
  ⟨rfl, rfl, rfl, rfl, rfl⟩

/-- C6: `add_object` returns an error and leaves the store unchanged whenever
`component_id` is outside [1,24], `x` or `y` is outside [0,1], or some live
object already has the same `component_id`; otherwise it succeeds, returns a
freshly allocated session id, and inserts under that id an object with the
given `component_id`, `x`, `y`, `type_id = component_id`, `user_id = 0`,
`angle = 0`, zero velocities, and shadow fields `last_x = x`, `last_y = y`,
`last_angle = 0`. -/
theorem claim_C6_add_object (s : AppState) (t : Int) (c : Nat) (x y : Rat) :
    (¬ (1 ≤ c ∧ c ≤ 24) →
      (∃ e, (add_object s t c x y).1 = Except.error e) ∧ (add_object s t c x y).2 = s) ∧
    (¬ (0 ≤ x ∧ x ≤ 1) ∨ ¬ (0 ≤ y ∧ y ≤ 1) →
      (∃ e, (add_object s t c x y).1 = Except.error e) ∧ (add_object s t c x y).2 = s) ∧
    ((∃ p ∈ s.objects, p.2.component_id = c) →
      (∃ e, (add_object s t c x y).1 = Except.error e) ∧ (add_object s t c x y).2 = s) ∧
    ((1 ≤ c ∧ c ≤ 24) → (0 ≤ x ∧ x ≤ 1) → (0 ≤ y ∧ y ≤ 1) →
      (∀ p ∈ s.objects, p.2.component_id ≠ c) →
      (add_object s t c x y).1 = Except.ok s.next_session_id ∧
      (add_object s t c x y).2.next_session_id = (s.next_session_id + 1) % u32size ∧
      (add_object s t c x y).2.objects =
        insertObj s.objects s.next_session_id
          { session_id := s.next_session_id, type_id := c, user_id := 0, component_id := c,
            x := x, y := y, angle := 0, x_vel := 0, y_vel := 0, angle_vel := 0,
            last_x := x, last_y := y, last_angle := 0, last_update := t }) := by
  refine ⟨?_, ?_, ?_, ?_⟩
  · intro h1
    simp only [add_object]
    rw [if_pos h1]
    exact ⟨⟨_, rfl⟩, rfl⟩
  · intro h2
    by_cases h1 : 1 ≤ c ∧ c ≤ 24
    · simp only [add_object]
      rw [if_neg (not_not_intro h1), if_pos h2]
      exact ⟨⟨_, rfl⟩, rfl⟩
    · simp only [add_object]
      rw [if_pos h1]
      exact ⟨⟨_, rfl⟩, rfl⟩
  · intro hdup
    by_cases h1 : 1 ≤ c ∧ c ≤ 24
    · by_cases h2 : ¬ (0 ≤ x ∧ x ≤ 1) ∨ ¬ (0 ≤ y ∧ y ≤ 1)
      · simp only [add_object]
        rw [if_neg (not_not_intro h1), if_pos h2]
        exact ⟨⟨_, rfl⟩, rfl⟩
      · have hany : s.objects.any (fun p => p.2.component_id = c) = true := by
          rw [List.any_eq_true]
          obtain ⟨p, hp, he⟩ := hdup
          exact ⟨p, hp, by simp [he]⟩
        simp only [add_object]
        rw [if_neg (not_not_intro h1), if_neg h2, if_pos hany]
        exact ⟨⟨_, rfl⟩, rfl⟩
    · simp only [add_object]
      rw [if_pos h1]
      exact ⟨⟨_, rfl⟩, rfl⟩
  · intro h1 hx hy hnodup
    have hany : s.objects.any (fun p => p.2.component_id = c) = false := by
      rw [List.any_eq_false]
      intro p hp
      simp [hnodup p hp]
    have h2 : ¬ (¬ (0 ≤ x ∧ x ≤ 1) ∨ ¬ (0 ≤ y ∧ y ≤ 1)) := by tauto
    simp only [add_object]
    rw [if_neg (not_not_intro h1), if_neg h2, if_neg (by simp [hany])]
    exact ⟨rfl, rfl, rfl⟩

theorem claim_C6_add_object_witness :
    (add_object AppState.new 0 7 1 0).1 = Except.ok AppState.new.next_session_id ∧
    (add_object AppState.new 0 7 1 0).2.next_session_id =
      (AppState.new.next_session_id + 1) % u32size ∧
    (add_object AppState.new 0 7 1 0).2.objects =
      insertObj AppState.new.objects AppState.new.next_session_id
        { session_id := AppState.new.next_session_id, type_id := 7, user_id := 0,
          component_id := 7, x := 1, y := 0, angle := 0, x_vel := 0, y_vel := 0,
          angle_vel := 0, last_x := 1, last_y := 0, last_angle := 0, last_update := 0 } :=
  (claim_C6_add_object AppState.new 0 7 1 0).2.2.2 (by norm_num) (by norm_num) (by norm_num)
    (by intro p hp; simp [AppState.new] at hp)

/-- C7: `update_object` with in-range coordinates and a live session id sets
only `x`, `y`, `angle`, `last_update` of that object (velocities, shadow
fields, identity fields, and every other object are unchanged); with an
absent session id it fails with a not-found error and the state is
unchanged. -/
theorem claim_C7_update_object (s : AppState) (t : Int) (sid : Nat) (x y ang : Rat)
    (hx : 0 ≤ x ∧ x ≤ 1) (hy : 0 ≤ y ∧ y ≤ 1) :
    (∀ o, lookupObj s.objects sid = some o →
      (update_object s t sid x y ang).1 = Except.ok () ∧
      lookupObj (update_object s t sid x y ang).2.objects sid =
        some { o with x := x, y := y, angle := ang, last_update := t } ∧
      (∀ k, k ≠ sid → lookupObj (update_object s t sid x y ang).2.objects k =
        lookupObj s.objects k) ∧
      (update_object s t sid x y ang).2.next_session_id = s.next_session_id ∧
      (update_object s t sid x y ang).2.frame_counter = s.frame_counter ∧
      (update_object s t sid x y ang).2.config = s.config) ∧
    (lookupObj s.objects sid = none →
      (∃ e, (update_object s t sid x y ang).1 = Except.error e) ∧
      (update_object s t sid x y ang).2 = s) := by
  have hcond : ¬ (¬ (0 ≤ x ∧ x ≤ 1) ∨ ¬ (0 ≤ y ∧ y ≤ 1)) := by tauto
  constructor
  · intro o ho
    have hst : (update_object s t sid x y ang).2.objects =
        modifyObj s.objects sid (fun o => { o with x := x, y := y, angle := ang, last_update := t }) := by
      simp only [update_object]
      rw [if_neg hcond, ho]
    have hres : (update_object s t sid x y ang).1 = Except.ok () := by
      simp only [update_object]
      rw [if_neg hcond, ho]
    have hns : (update_object s t sid x y ang).2.next_session_id = s.next_session_id := by
      simp only [update_object]
      rw [if_neg hcond, ho]
    have hfc : (update_object s t sid x y ang).2.frame_counter = s.frame_counter := by
      simp only [update_object]
      rw [if_neg hcond, ho]
    have hcfg : (update_object s t sid x y ang).2.config = s.config := by
      simp only [update_object]
      rw [if_neg hcond, ho]
    refine ⟨hres, ?_, ?_, hns, hfc, hcfg⟩
    · rw [hst, lookupObj_modifyObj_self, ho]
      rfl
    · intro k hk
      rw [hst]
      exact lookupObj_modifyObj_ne s.objects sid k _ hk
  · intro ho
    simp only [update_object]
    rw [if_neg hcond, ho]
    exact ⟨⟨_, rfl⟩, rfl⟩

theorem claim_C7_update_object_witness :
    (update_object { AppState.new with objects := [(1, sampleObject)] } 50 1 1 1 2).1 =
      Except.ok () ∧
    lookupObj (update_object { AppState.new with objects := [(1, sampleObject)] }
        50 1 1 1 2).2.objects 1 =
      some { sampleObject with x := 1, y := 1, angle := 2, last_update := 50 } ∧
    (∀ k, k ≠ 1 → lookupObj (update_object { AppState.new with
        objects := [(1, sampleObject)] } 50 1 1 1 2).2.objects k =
      lookupObj ({ AppState.new with objects := [(1, sampleObject)] } : AppState).objects k) ∧
    (update_object { AppState.new with objects := [(1, sampleObject)] }
        50 1 1 1 2).2.next_session_id =
      ({ AppState.new with objects := [(1, sampleObject)] } : AppState).next_session_id ∧
    (update_object { AppState.new with objects := [(1, sampleObject)] }
        50 1 1 1 2).2.frame_counter =
      ({ AppState.new with objects := [(1, sampleObject)] } : AppState).frame_counter ∧
    (update_object { AppState.new with objects := [(1, sampleObject)] }
        50 1 1 1 2).2.config =
      ({ AppState.new with objects := [(1, sampleObject)] } : AppState).config :=
  (claim_C7_update_object { AppState.new with objects := [(1, sampleObject)] }
    50 1 1 1 2 (by norm_num) (by norm_num)).1 sampleObject rfl

theorem mem_insertObj {l : List (Nat × TuioObject)} {k : Nat} {v : TuioObject}
    {p : Nat × TuioObject} (h : p ∈ insertObj l k v) : p.2 = v ∨ p ∈ l := by
  unfold insertObj at h
  split at h
  · rcases List.mem_map.1 h with ⟨q, hq, he⟩
    by_cases hqk : q.1 = k
    · rw [if_pos hqk] at he
      left
      rw [← he]
    · rw [if_neg hqk] at he
      right
      rw [← he]
      exact hq
  · rcases List.mem_append.1 h with h1 | h1
    · right
      exact h1
    · left
      rcases List.mem_singleton.1 h1 with rfl
      rfl

theorem mem_modifyObj {l : List (Nat × TuioObject)} {k : Nat} {f : TuioObject → TuioObject}
    {p : Nat × TuioObject} (h : p ∈ modifyObj l k f) :
    p ∈ l ∨ ∃ q, q ∈ l ∧ p.2 = f q.2 := by
  rcases List.mem_map.1 h with ⟨q, hq, he⟩
  by_cases hqk : q.1 = k
  · right
    refine ⟨q, hq, ?_⟩
    rw [← he, if_pos hqk]
  · left
    rw [← he, if_neg hqk]
    exact hq

theorem mem_removeObj {l : List (Nat × TuioObject)} {k : Nat}
    {p : Nat × TuioObject} (h : p ∈ removeObj l k) : p ∈ l :=
  (List.mem_filter.1 h).1

theorem mem_calculate_velocities {l : List (Nat × TuioObject)} {t : Int}
    {p : Nat × TuioObject} (h : p ∈ calculate_velocities l t) :
    ∃ q, q ∈ l ∧ p.2 = updateVelocity t q.2 := by
  rcases List.mem_map.1 h with ⟨q, hq, he⟩
  refine ⟨q, hq, ?_⟩
  rw [← he]

theorem add_object_range (s : AppState) (t : Int) (c : Nat) (x y : Rat)
    (H : ∀ p ∈ s.objects, 0 ≤ p.2.x ∧ p.2.x ≤ 1 ∧ 0 ≤ p.2.y ∧ p.2.y ≤ 1) :
    ∀ p ∈ (add_object s t c x y).2.objects,
      0 ≤ p.2.x ∧ p.2.x ≤ 1 ∧ 0 ≤ p.2.y ∧ p.2.y ≤ 1 := by
  intro p hp
  by_cases h1 : ¬ (1 ≤ c ∧ c ≤ 24)
  · have he : (add_object s t c x y).2 = s := by
      simp only [add_object]
      rw [if_pos h1]
    rw [he] at hp
    exact H p hp
  · by_cases h2 : ¬ (0 ≤ x ∧ x ≤ 1) ∨ ¬ (0 ≤ y ∧ y ≤ 1)
    · have he : (add_object s t c x y).2 = s := by
        simp only [add_object]
        rw [if_neg h1, if_pos h2]
      rw [he] at hp
      exact H p hp
    · by_cases h3 : s.objects.any (fun q => q.2.component_id = c) = true
      · have he : (add_object s t c x y).2 = s := by
          simp only [add_object]
          rw [if_neg h1, if_neg h2, if_pos h3]
        rw [he] at hp
        exact H p hp
      · have he : (add_object s t c x y).2.objects =
            insertObj s.objects s.next_session_id
              { session_id := s.next_session_id, type_id := c, user_id := 0, component_id := c,
                x := x, y := y, angle := 0, x_vel := 0, y_vel := 0, angle_vel := 0,
                last_x := x, last_y := y, last_angle := 0, last_update := t } := by
          simp only [add_object]
          rw [if_neg h1, if_neg h2, if_neg h3]
          rfl
        rw [he] at hp
        rcases mem_insertObj hp with hv | hv
        · push_neg at h2
          rw [hv]
          exact ⟨h2.1.1, h2.1.2, h2.2.1, h2.2.2⟩
        · exact H p hv

theorem update_object_range (s : AppState) (t : Int) (sid : Nat) (x y ang : Rat)
    (H : ∀ p ∈ s.objects, 0 ≤ p.2.x ∧ p.2.x ≤ 1 ∧ 0 ≤ p.2.y ∧ p.2.y ≤ 1) :
    ∀ p ∈ (update_object s t sid x y ang).2.objects,
      0 ≤ p.2.x ∧ p.2.x ≤ 1 ∧ 0 ≤ p.2.y ∧ p.2.y ≤ 1 := by
  intro p hp
  by_cases h1 : ¬ (0 ≤ x ∧ x ≤ 1) ∨ ¬ (0 ≤ y ∧ y ≤ 1)
  · have he : (update_object s t sid x y ang).2 = s := by
      simp only [update_object]
      rw [if_pos h1]
    rw [he] at hp
    exact H p hp
  · cases hl : lookupObj s.objects sid with
    | some o =>
        have he : (update_object s t sid x y ang).2.objects =
            modifyObj s.objects sid (fun o => { o with x := x, y := y, angle := ang, last_update := t }) := by
          simp only [update_object]
          rw [if_neg h1, hl]
        rw [he] at hp
        rcases mem_modifyObj hp with hv | ⟨q, hq, he2⟩
        · exact H p hv
        · push_neg at h1
          rw [he2]
          exact ⟨h1.1.1, h1.1.2, h1.2.1, h1.2.2⟩
    | none =>
        have he : (update_object s t sid x y ang).2 = s := by
          simp only [update_object]
          rw [if_neg h1, hl]
        rw [he] at hp
        exact H p hp

theorem remove_object_range (s : AppState) (sid : Nat)
    (H : ∀ p ∈ s.objects, 0 ≤ p.2.x ∧ p.2.x ≤ 1 ∧ 0 ≤ p.2.y ∧ p.2.y ≤ 1) :
    ∀ p ∈ (remove_object s sid).2.objects,
      0 ≤ p.2.x ∧ p.2.x ≤ 1 ∧ 0 ≤ p.2.y ∧ p.2.y ≤ 1 := by
  intro p hp
  cases hl : lookupObj s.objects sid with
  | some o =>
      have he : (remove_object s sid).2.objects = removeObj s.objects sid := by
        simp only [remove_object]
        rw [hl]
      rw [he] at hp
      exact H p (mem_removeObj hp)
  | none =>
      have he : (remove_object s sid).2 = s := by
        simp only [remove_object]
        rw [hl]
      rw [he] at hp
      exact H p hp

theorem set_frame_rate_objects (s : AppState) (fps : Nat) :
    (set_frame_rate s fps).2.objects = s.objects := by
  simp only [set_frame_rate]
  split <;> rfl

theorem set_canvas_dimensions_objects (s : AppState) (w h : Nat) :
    (set_canvas_dimensions s w h).2.objects = s.objects := by
  simp only [set_canvas_dimensions]
  split <;> rfl

theorem start_server_objects (s : AppState) (port : Nat) (bindOk : Bool) :
    (start_server s port bindOk).1.2.objects = s.objects := by
  simp only [start_server]
  split
  · rfl
  · split <;> rfl

/-- C8: every object ever present in the store has `0 <= x <= 1` and
`0 <= y <= 1`: `add_object` and `update_object` reject out-of-range
coordinates before mutating, and no other operation writes `x` or `y`, so the
invariant holds in every state reachable from the empty initial store. -/
theorem claim_C8_coordinate_invariant (s : AppState) (hs : Reachable s) :
    ∀ p ∈ s.objects, 0 ≤ p.2.x ∧ p.2.x ≤ 1 ∧ 0 ≤ p.2.y ∧ p.2.y ≤ 1 := by
  induction hs with
  | init =>
      intro p hp
      simp [AppState.new] at hp
  | step hr hstep ih =>
      cases hstep with
      | add t c x y => exact add_object_range _ t c x y ih
      | update t sid x y ang => exact update_object_range _ t sid x y ang ih
      | remove sid => exact remove_object_range _ sid ih
      | setFps fps =>
          intro p hp
          rw [set_frame_rate_objects] at hp
          exact ih p hp
      | setDims w h =>
          intro p hp
          rw [set_canvas_dimensions_objects] at hp
          exact ih p hp
      | genFrame fb t =>
          intro p hp
          rcases mem_calculate_velocities hp with ⟨q, hq, he2⟩
          obtain ⟨hx, hy, -⟩ := updateVelocity_position t q.2
          rw [he2, hx, hy]
          exact ih q hq
      | start port bindOk =>
          intro p hp
          rw [start_server_objects] at hp
          exact ih p hp
      | stop =>
          intro p hp
          exact ih p hp

theorem claim_C8_coordinate_invariant_witness :
    0 ≤ (((0 : Nat), addedObject)).2.x ∧ (((0 : Nat), addedObject)).2.x ≤ 1 ∧
      0 ≤ (((0 : Nat), addedObject)).2.y ∧ (((0 : Nat), addedObject)).2.y ≤ 1 :=
  claim_C8_coordinate_invariant (add_object AppState.new 0 7 1 0).2
    (Reachable.step Reachable.init (Step.add AppState.new 0 7 1 0))
    ((0 : Nat), addedObject) (by decide)

/-- C9 counterexample: on a successful start from the fresh state, the trace
of `start_server` spawns the frame-producer task (index 3) before it sets the
Running flag (index 5) — the reverse of the claimed order, so the producer's
first loop check can observe Running=false. -/
theorem claim_C9_counterexample :
    (start_server AppState.new 3343 true).2 =
      [ServerAction.checkRunning, ServerAction.setPort 3343, ServerAction.bindWebsocket 3343,
       ServerAction.spawnFrameTask, ServerAction.storeTaskHandle, ServerAction.setRunning true] ∧
    ¬ ((start_server AppState.new 3343 true).2.indexOf (ServerAction.setRunning true) <
        (start_server AppState.new 3343 true).2.indexOf ServerAction.spawnFrameTask) := by
  decide

/-- C9 (amended): `start_server` (1) returns an error without state change
when the server is already Running; (2) persists the given port into config;
(3) on bind failure returns the error with Running still false; and on a
successful bind it spawns the periodic frame-producer task, stores its handle,
and only then sets Running true — the producer task is started before the
Running flag is set (the reverse of the spec's steps 4 and 5). -/
theorem claim_C9_start_server (s : AppState) (port : Nat) (bindOk : Bool) :
    (s.server_running = true →
      (start_server s port bindOk).1.1 = Except.error "Server is already running" ∧
      (start_server s port bindOk).1.2 = s) ∧
    (s.server_running = false →
      (start_server s port bindOk).1.2.config.port = port) ∧
    (s.server_running = false → bindOk = false →
      (∃ e, (start_server s port bindOk).1.1 = Except.error e) ∧
      (start_server s port bindOk).1.2.server_running = false) ∧
    (s.server_running = false → bindOk = true →
      (start_server s port bindOk).1.1 = Except.ok () ∧
      (start_server s port bindOk).1.2.server_running = true ∧
      (start_server s port bindOk).2 =
        [ServerAction.checkRunning, ServerAction.setPort port, ServerAction.bindWebsocket port,
         ServerAction.spawnFrameTask, ServerAction.storeTaskHandle,
         ServerAction.setRunning true]) := by
  refine ⟨?_, ?_, ?_, ?_⟩
  · intro h
    simp [start_server, h]
  · intro h
    cases bindOk <;> simp [start_server, h]
  · intro h hb
    subst hb
    simp [start_server, h]
  · intro h hb
    subst hb
    simp [start_server, h]

theorem claim_C9_start_server_witness :
    (start_server AppState.new 3343 true).1.1 = Except.ok () ∧
    (start_server AppState.new 3343 true).1.2.server_running = true ∧
    (start_server AppState.new 3343 true).2 =
      [ServerAction.checkRunning, ServerAction.setPort 3343, ServerAction.bindWebsocket 3343,
       ServerAction.spawnFrameTask, ServerAction.storeTaskHandle,
       ServerAction.setRunning true] :=
  (claim_C9_start_server AppState.new 3343 true).2.2.2 rfl rfl

/-- C10: neither `stop_server` nor `start_server` resets the frame counter,
the session-id counter, or the object store: after a stop (or a stop followed
by a start) the counters and all live objects are retained, and
`get_server_status` reports the same `frame_count` and `object_count`
immediately after `stop_server` as immediately before it. -/
theorem claim_C10_stop_start_preserve (s : AppState) (port : Nat) (bindOk : Bool) :
    (stop_server s).1.2.frame_counter = s.frame_counter ∧
    (stop_server s).1.2.next_session_id = s.next_session_id ∧
    (stop_server s).1.2.objects = s.objects ∧
    (get_server_status (stop_server s).1.2).frame_count = (get_server_status s).frame_count ∧
    (get_server_status (stop_server s).1.2).object_count = (get_server_status s).object_count ∧
    (start_server s port bindOk).1.2.frame_counter = s.frame_counter ∧
    (start_server s port bindOk).1.2.next_session_id = s.next_session_id ∧
    (start_server s port bindOk).1.2.objects = s.objects ∧
    (start_server (stop_server s).1.2 port bindOk).1.2.frame_counter = s.frame_counter ∧
    (start_server (stop_server s).1.2 port bindOk).1.2.next_session_id = s.next_session_id ∧
    (start_server (stop_server s).1.2 port bindOk).1.2.objects = s.objects := by
  have hfc : ∀ s' : AppState,
      (start_server s' port bindOk).1.2.frame_counter = s'.frame_counter := by
    intro s'
    simp only [start_server]
    split
    · rfl
    · split <;> rfl
  have hns : ∀ s' : AppState,
      (start_server s' port bindOk).1.2.next_session_id = s'.next_session_id := by
    intro s'
    simp only [start_server]
    split
    · rfl
    · split <;> rfl
  refine ⟨rfl, rfl, rfl, rfl, rfl, hfc s, hns s, start_server_objects s port bindOk,
    (hfc _).trans rfl, (hns _).trans rfl, (start_server_objects _ port bindOk).trans rfl⟩
